import Mathlib

/-!
Shallow embedding of the KMS diagnostic pipeline from src/gfx.py and
src/drm.py.  The two Python files are two revisions of the same tool and
differ in a few severities and probe orchestration details; where they
differ, both variants are embedded (suffix _gfx / _drm).

Modelling conventions:
  - the filesystem is injected: each function takes the values the Python
    code would have read (a path either yields its stripped text or None);
  - time.sleep is a no-op observationally; the flip probe additionally
    reports how many sleeps it performed so that wait-freedom is provable;
  - print / lines.append are both treated as recording an evidence entry.
-/

namespace DrmTest

/-- Severity tag of one evidence entry: gfx.py appends "[OK]" lines where
drm.py prints "[PASS]" lines; both use "[FAIL]", "[WARN]", "[INFO]". -/
inductive Sev
  | pass
  | ok
  | fail
  | warn
  | info
  deriving DecidableEq, Repr

/-- View of a single path in the hierarchical state store: the path is
absent, present but unreadable, or has textual content.  read_text in the
source collapses the first two cases to None via a bare except. -/
inductive FileState
  | absent
  | unreadable
  | content (data : String)
  deriving DecidableEq, Repr

/-- Marker appended by read_text when content exceeds max_bytes. -/
def truncationFlag : String := "\n<...truncated...>\n"

/-- Python str.strip(): remove leading and trailing whitespace.  Defined by
structural recursion over the character list (the content modelled is ASCII,
where Python and Lean agree on what whitespace is). -/
def pyStrip (s : String) : String :=
  ⟨((s.data.dropWhile (·.isWhitespace)).reverse.dropWhile (·.isWhitespace)).reverse⟩

/-- Python str.lower() on the character list. -/
def pyLower (s : String) : String := ⟨s.data.map Char.toLower⟩

/-- Python slicing s[:n].  The source slices a byte string; the modelled
content is ASCII, where byte and character counts coincide. -/
def pyTake (s : String) (n : Nat) : String := ⟨s.data.take n⟩

/-- Python str.startswith. -/
def pyStartsWith (s pre : String) : Bool := pre.data.isPrefixOf s.data

/-- Split of a character list at every occurrence of a separator char. -/
def splitOnChar (sep : Char) : List Char → List (List Char)
  | [] => [[]]
  | c :: cs =>
    let r := splitOnChar sep cs
    if c = sep then [] :: r
    else
      match r with
      | [] => [[c]]
      | h :: t => (c :: h) :: t

/-- Join of a string list with a separator, as Python sep.join. -/
def pyJoin (sep : String) : List String → String
  | [] => ""
  | [x] => x
  | x :: xs => x ++ sep ++ pyJoin sep xs

/-- Embedding of read_text (src/gfx.py lines 47-54, src/drm.py lines 45-52):
reads the path, truncates at max_bytes adding a truncation marker, strips the
result; any failure (absent or unreadable path) yields None. -/
def read_text (fs : FileState) (max_bytes : Nat) : Option String :=
  match fs with
  | .absent => none
  | .unreadable => none
  | .content s =>
    some (if s.length > max_bytes then pyStrip (pyTake s max_bytes ++ truncationFlag) else pyStrip s)

/-- Word character in the sense of the regex metacharacter used by
the fb= pattern word boundaries. -/
def isWordChar (c : Char) : Bool := c.isAlphanum || c == '_'

/-- Longest prefix of decimal digits and the remaining characters. -/
def spanDigits : List Char → List Char × List Char
  | [] => ([], [])
  | c :: cs =>
    if c.isDigit then
      let r := spanDigits cs
      (c :: r.1, r.2)
    else ([], c :: cs)

/-- Numeric value of a decimal digit string, as Python int() on the match. -/
def digitsToNat (ds : List Char) : Nat :=
  ds.foldl (fun n c => n * 10 + (c.toNat - 48)) 0

/-- Fuel-driven scanner equivalent to finditer of the pattern fb=(digits)
with word boundaries on both sides (src _FB_RE).  prevWord records whether
the previous character was a word character (false at the start of text).
Fuel is the length of the remaining text, which every step strictly
decreases, so the fuel never runs out. -/
def scanFBAux : Nat → Bool → List Char → List Nat
  | 0, _, _ => []
  | fuel + 1, prevWord, l =>
    match l with
    | [] => []
    | 'f' :: cs =>
      if prevWord then scanFBAux fuel true cs
      else
        match cs with
        | 'b' :: '=' :: rest =>
          let ds := (spanDigits rest).1
          let rest2 := (spanDigits rest).2
          if ds = [] then scanFBAux fuel true cs
          else if (match rest2 with | [] => true | c2 :: _ => !isWordChar c2) then
            digitsToNat ds :: scanFBAux fuel true rest2
          else scanFBAux fuel true rest2
        | _ => scanFBAux fuel true cs
    | c :: cs => scanFBAux fuel (isWordChar c) cs

/-- Embedding of _extract_fb_ids_from_state: all fb=(digits) occurrences. -/
def _extract_fb_ids_from_state (s : String) : List Nat :=
  scanFBAux s.data.length false s.data

/-- Insertion of a value into a sorted list of naturals. -/
def insertSorted (x : Nat) : List Nat → List Nat
  | [] => [x]
  | y :: ys => if x ≤ y then x :: y :: ys else y :: insertSorted x ys

/-- Insertion sort, used to embed the Python builtin sorted(). -/
def sortNats (l : List Nat) : List Nat := l.foldr insertSorted []

/-- Embedding of sorted(set(ids)): sorted list of the distinct ids. -/
def sortedSet (l : List Nat) : List Nat := sortNats l.dedup

/-- Result record of the flip probe: the fields declared on class FlipResult
in src/gfx.py lines 178-182 (src/drm.py constructs the same shape). -/
structure FlipResult where
  supported : Bool
  flips_seen : Nat
  samples : Int
  details : String
  deriving DecidableEq, Repr

/-- Debugfs state file path of a card, as DRI_DEBUGFS / str(card) / "state". -/
def state_path (card : Nat) : String :=
  "/sys/kernel/debug/dri/" ++ toString card ++ "/state"

/-- Sampling loop of check_framebuffer_flips: at iteration i the code sleeps
(counted in the second component), re-reads the state file (injected as
reads i), breaks on a failed read, otherwise compares the sorted fb id set
with the previous one and counts a flip when it changed. -/
def flipLoop (reads : Nat → Option String) :
    Nat → Nat → List Nat → Nat → Nat → Nat × Nat
  | _, 0, _, flips, waits => (flips, waits)
  | i, fuel + 1, prev, flips, waits =>
    match reads i with
    | none => (flips, waits + 1)
    | some txt =>
      let cur := sortedSet (_extract_fb_ids_from_state txt)
      if cur ≠ prev then flipLoop reads (i + 1) fuel cur (flips + 1) (waits + 1)
      else flipLoop reads (i + 1) fuel prev flips (waits + 1)

/-- Embedding of check_framebuffer_flips (src/gfx.py lines 190-214,
src/drm.py lines 238-262).  txt0 is the initial read of the state file and
reads i the read in loop iteration i (read_text results).  The loop body
runs samples - 1 times (Python range(samples - 1); empty for samples <= 1).
Besides the FlipResult the model returns the number of sleeps performed. -/
def check_framebuffer_flips (card : Nat) (samples : Int) (txt0 : Option String)
    (reads : Nat → Option String) : FlipResult × Nat :=
  match txt0 with
  | none => (⟨false, 0, 0, "Missing/unreadable: " ++ state_path card⟩, 0)
  | some t0 =>
    let prev := sortedSet (_extract_fb_ids_from_state t0)
    let r := flipLoop reads 0 (samples - 1).toNat prev 0 0
    (⟨true, r.1, samples, "state=" ++ state_path card ++ " (fb ids change count)"⟩, r.2)

/-- Result record of the vblank probe (dataclass VBlankResult in src/gfx.py);
deltas is the per counter dictionary, embedded as an association list. -/
structure VBlankResult where
  supported : Bool
  deltas : List (String × Int)
  details : String
  deriving DecidableEq, Repr

/-- First run of digits in a text, as re.search of a digit group. -/
def firstNatAux : List Char → Option Nat
  | [] => none
  | c :: cs => if c.isDigit then some (digitsToNat (c :: (spanDigits cs).1)) else firstNatAux cs

/-- Embedding of _read_int (src/gfx.py lines 121-126): read_text result of
the counter path, then the first integer found in it, else None. -/
def _read_int (t : Option String) : Option Int :=
  t.bind fun s => (firstNatAux s.data).map Int.ofNat

/-- Dictionary built by a read loop: one entry per counter whose read
succeeded, keyed by the counter path. -/
def mkAssoc (counters : List String) (f : String → Option Int) : List (String × Int) :=
  counters.filterMap fun p => (f p).map fun v => (p, v)

/-- Python dict lookup .get on the embedded association list. -/
def dictGet (l : List (String × Int)) (k : String) : Option Int :=
  (l.find? fun kv => kv.1 == k).map (·.2)

/-- Debugfs base directory of a card. -/
def vblank_base (card : Nat) : String := "/sys/kernel/debug/dri/" ++ toString card

/-- Intended semantics of check_vblank_events (src/gfx.py lines 128-173).
The function as written cannot execute: gfx.py defines neither DRI_DEBUGFS
(read at line 137) nor time (line 160), so every real call raises NameError
at once.  This model supplies the missing globals — the debugfs base
constant exactly as the sibling revision drm.py defines it, and an
observationally silent sleep — and embeds the probe body unchanged:
baseExists says whether the debugfs card directory exists; counters is the
list of vblank counter files found under crtc-*; readBefore / readAfter give
the read_text result of each counter before and after the wait.  The before
and after dictionaries keep only successful reads, and a delta is produced
for a key of before only when after also holds it. -/
def check_vblank_events (card : Nat) (baseExists : Bool) (counters : List String)
    (readBefore readAfter : String → Option String) : VBlankResult :=
  if !baseExists then ⟨false, [], "Missing: " ++ vblank_base card⟩
  else if counters = [] then
    ⟨false, [], "No vblank counters found under " ++ vblank_base card ++ "/crtc-*"⟩
  else
    let before := mkAssoc counters (fun p => _read_int (readBefore p))
    let after := mkAssoc counters (fun p => _read_int (readAfter p))
    let deltas := before.filterMap fun kv => (dictGet after kv.1).map fun v1 => (kv.1, v1 - kv.2)
    ⟨true, deltas, "Non-zero delta usually means vblank is ticking for that CRTC"⟩

/-- Return value of capture_drm_trace (src/drm.py).  Modelled from the spec:
the source returns TraceCaptureResult(False, ...) on the unsupported path but
the TraceCaptureResult class is referenced without being defined anywhere in
src/; the probe outcome is therefore modelled as this three-way result
(supported=False with a reason; the bare return None of the except
PermissionError handler; the line_count returned on completion). -/
inductive TraceResult
  | unsupported (reason : String)
  | permissionDenied
  | completed (line_count : Int)
  deriving DecidableEq, Repr

/-- Injected environment of capture_drm_trace: whether tracefs is mounted,
which enable files exist, the enable files seen by disable_all_drm_events
under events/drm/*/enable, the value count_trace_lines would return, and
the index (within the fallible write sequence) of the first write that
raises PermissionError, if any. -/
structure TraceEnv where
  tracefs_mounted : Bool
  enable_file_exists : String → Bool
  drm_enable_files : List String
  trace_line_count : Int
  failAt : Option Nat

/-- Default event list of capture_drm_trace. -/
def default_events : List String :=
  ["drm:drm_atomic_commit", "drm:drm_vblank_event", "drm:drm_vblank_event_delivered"]

/-- Embedding of _exists_enable_file (src/drm.py lines 130-136): an event
without a colon yields None, otherwise the enable path under tracefs events,
returned only when it exists. -/
def _exists_enable_file (env : TraceEnv) (ev : String) : Option String :=
  match splitOnChar ':' ev.data with
  | [] => none
  | [_] => none
  | cat :: rest =>
    let p := "/sys/kernel/tracing/events/" ++ cat.asString ++ "/" ++
      pyJoin ":" (rest.map List.asString) ++ "/enable"
    if env.enable_file_exists p then some p else none

/-- Writes attempted by capture_drm_trace inside its try block, in source
order: stop tracing, clear the buffer, enable each existing event switch,
start tracing, stop tracing.  Each of these can raise. -/
def fallible_writes (env : TraceEnv) (events : List String) : List (String × String) :=
  [("/sys/kernel/tracing/tracing_on", "0"), ("/sys/kernel/tracing/trace", "")] ++
  events.filterMap (fun ev => (_exists_enable_file env ev).map (fun p => (p, "1"))) ++
  [("/sys/kernel/tracing/tracing_on", "1"), ("/sys/kernel/tracing/tracing_on", "0")]

/-- Cleanup writes of disable_all_drm_events (src/drm.py lines 138-156):
a disable write to every events/drm/*/enable file, each wrapped in its own
try so these writes never abort. -/
def cleanup_writes (env : TraceEnv) (cleanup : Bool) : List (String × String) :=
  if cleanup then env.drm_enable_files.map (fun p => (p, "0")) else []

/-- Embedding of capture_drm_trace (src/drm.py lines 172-228) with default
events.  Returns the probe outcome and the list of writes actually performed.
When tracefs is absent the function returns before any write.  When the k-th
fallible write raises PermissionError, the except handler returns directly:
only the writes before k were performed and no cleanup write happens. -/
def capture_drm_trace (env : TraceEnv) (cleanup_disable_all : Bool) :
    TraceResult × List (String × String) :=
  if !env.tracefs_mounted then
    (.unsupported "tracefs not mounted at /sys/kernel/tracing", [])
  else
    let ws := fallible_writes env default_events
    match env.failAt with
    | some k =>
      if k < ws.length then (.permissionDenied, ws.take k)
      else (.completed env.trace_line_count, ws ++ cleanup_writes env cleanup_disable_all)
    | none => (.completed env.trace_line_count, ws ++ cleanup_writes env cleanup_disable_all)

/-- Last value written to a path over a run, if any. -/
def last_write_to (writes : List (String × String)) (p : String) : Option String :=
  ((writes.filter fun w => w.1 == p).map (·.2)).getLast?

/-- Whether a trace-event enable switch is left enabled once the operation
has exited: the last write to it was an enable. -/
def switch_enabled_at_exit (writes : List (String × String)) (p : String) : Bool :=
  last_write_to writes p == some "1"

/-- Result record of the panel self-refresh probe (dataclass PsrAlpmResult,
identical in both source files). -/
structure PsrAlpmResult where
  supported : Bool
  psr_enabled : Option Bool
  psr_active : Option Bool
  alpm_active_hint : Option Bool
  raw_excerpt : String
  details : String
  deriving DecidableEq, Repr

/-- One recorded evidence entry: a severity prefix and a message. -/
inductive Evidence
  | tagged (sev : Sev) (msg : String)
  deriving DecidableEq, Repr

/-- Outcome of calling a Python function that may raise an uncaught
exception instead of returning: either the returned value or the error. -/
inductive PyResult (α : Type)
  | val (a : α)
  | raises (err : String)
  deriving DecidableEq, Repr

/-- NameError raised by the `return 2, lines` statements of run_flow_kms in
src/drm.py (lines 473, 479, 502, 508, 515, 532): drm.py never defines lines,
so every hard-gate failure path raises after printing its FAIL line. -/
def nameErrLines : String := "NameError: name lines is not defined"

/-- NameError raised by pick_primary_card in src/gfx.py: gfx.py never
defines DEBUGFS/DRI_DEBUGFS (used by list_dri_debug_cards at line 100), so
gate 6 of gfx.py raises on every run that reaches it. -/
def nameErrDri : String := "NameError: name DRI_DEBUGFS is not defined"

/-- NameError raised by capture_drm_trace in src/drm.py when tracefs is
absent: the early return constructs TraceCaptureResult (line 185), which is
never defined in src/. -/
def nameErrTraceResult : String := "NameError: name TraceCaptureResult is not defined"

/-- Fields connector_info reads for one connector directory: each attribute
is the read_text result of the file of that name (None when the read failed), and
edid_bytes is the stat size as a string, "?" when stat failed, absent when
the edid file does not exist. -/
structure ConnInfo where
  name : String
  status : Option String
  enabled : Option String
  dpms : Option String
  modes : Option String
  link_status : Option String
  edid_bytes : Option String
  deriving DecidableEq, Repr

/-- Python splitlines on a value already stripped by read_text: the empty
string has no lines, otherwise split on newline. -/
def splitlines (s : String) : List String :=
  if s = "" then [] else (splitOnChar '\n' s.data).map List.asString

/-- status field of the loop body: (ci.get("status") or "").strip(). -/
def conn_status (ci : ConnInfo) : String := pyStrip (ci.status.getD "")

/-- Number of mode lines: len((ci.get("modes") or "").splitlines()). -/
def conn_modes_len (ci : ConnInfo) : Nat := (splitlines (ci.modes.getD "")).length

/-- edid_bytes field with its dictionary default: ci.get("edid_bytes", "0"). -/
def conn_edid_bytes (ci : ConnInfo) : String := ci.edid_bytes.getD "0"

/-- link_status field: (ci.get("link_status") or "").strip(). -/
def conn_link_status (ci : ConnInfo) : String := pyStrip (ci.link_status.getD "")

/-- Per connector INFO line printed by both source files. -/
def conn_info_line (ci : ConnInfo) : Evidence :=
  .tagged .info (ci.name ++ ": status=" ++
    (if conn_status ci = "" then "<unknown>" else conn_status ci) ++
    ", edid_bytes=" ++ conn_edid_bytes ci ++
    ", modes=" ++ toString (conn_modes_len ci) ++
    (if conn_link_status ci = "" then "" else ", link_status=" ++ conn_link_status ci))

/-- Message of the no-modes finding. -/
def conn_no_modes_msg (ci : ConnInfo) : String :=
  ci.name ++ ": connected but no modes (EDID/AUX/DDC/link issue)"

/-- Message of the suspicious EDID finding. -/
def conn_edid_msg (ci : ConnInfo) : String :=
  ci.name ++ ": EDID size suspicious (edid_bytes=" ++ conn_edid_bytes ci ++ ")"

/-- Message of the link status finding. -/
def conn_link_msg (ci : ConnInfo) : String :=
  ci.name ++ ": link_status=" ++ conn_link_status ci

/-- Connector loop body of src/gfx.py lines 494-509: the INFO line always;
when the connector is connected, a WARN for zero modes, a WARN for an
implausible EDID size, and a WARN for a present link status other than good.
The Bool is the contribution to any_connected. -/
def evalConnector_gfx (ci : ConnInfo) : List Evidence × Bool :=
  let st := conn_status ci
  ([conn_info_line ci] ++
    (if st = "connected" then
      (if conn_modes_len ci = 0 then [.tagged .warn (conn_no_modes_msg ci)] else []) ++
      (if conn_edid_bytes ci ∈ ["0", "", "?"] then [.tagged .warn (conn_edid_msg ci)] else []) ++
      (if conn_link_status ci ≠ "" ∧ pyLower (conn_link_status ci) ≠ "good" then
        [.tagged .warn (conn_link_msg ci)] else [])
    else []),
    st = "connected")

/-- Connector loop body of src/drm.py lines 540-555: same structure as the
gfx variant, but zero modes and a bad link status are recorded as FAIL. -/
def evalConnector_drm (ci : ConnInfo) : List Evidence × Bool :=
  let st := conn_status ci
  ([conn_info_line ci] ++
    (if st = "connected" then
      (if conn_modes_len ci = 0 then [.tagged .fail (conn_no_modes_msg ci)] else []) ++
      (if conn_edid_bytes ci ∈ ["0", "", "?"] then [.tagged .warn (conn_edid_msg ci)] else []) ++
      (if conn_link_status ci ≠ "" ∧ pyLower (conn_link_status ci) ≠ "good" then
        [.tagged .fail (conn_link_msg ci)] else [])
    else []),
    st = "connected")

/-- Injected world state read by run_flow_kms.  Filesystem reads are given
as the values the Python helpers would return; the gate 6 probe outcomes are
injected as well, since they depend on runtime signals:
  - sysDrmEntries: sorted directory names under /sys/class/drm;
  - driverOf: get_driver_for_card (driver symlink target name);
  - identityOf / pmOf: device_identity and runtime_pm_info dictionaries as
    ordered key/value lists;
  - devDriNodes: sorted names under /dev/dri;
  - moduleParamOf: module_param (read_text of the parameter file);
  - connectorsOf: connector_info records of the connectors of a card, in
    directory order (entries whose status file exists);
  - debugfsCards: list_dri_debug_cards output as computed in drm.py
    (digit-named debugfs entries whose state shows active=1; the empty list
    also covers the permission-denied None return, which pick_primary_card
    treats like an empty list).  gfx.py never gets this far: its gate 6
    raises NameError first (DRI_DEBUGFS is undefined in gfx.py);
  - traceVb: outcome of capture_drm_trace in drm.py — val (some n) when the
    capture completed with line count n, val none when the except
    PermissionError handler returned None, raises when tracefs is absent and
    the undefined TraceCaptureResult aborts the call;
  - flipsCount: outcome of check_framebuffer_flips in drm.py — val n on a
    completed sampling run, raises when the first read fails and the
    undefined FlipResult aborts the call;
  - psrOk: Python truthiness of the check_psr_alpm_state return value in
    drm.py (a bool on the parsed path, a truthy record on the unsupported
    path). -/
structure World where
  sysDrmEntries : List String
  driverOf : String → Option String
  identityOf : String → List (String × String)
  pmOf : String → List (String × String)
  devDriNodes : List String
  moduleParamOf : String → String → Option String
  connectorsOf : String → List ConnInfo
  debugfsCards : List Nat
  traceVb : PyResult (Option Int)
  flipsCount : PyResult Nat
  psrOk : Bool

/-- Python ", ".flatten. -/
def joinComma (l : List String) : String := pyJoin ", " l

/-- Whether a /sys/class/drm entry is a cardN controller (re.fullmatch of
card followed by digits). -/
def isCardName (s : String) : Bool :=
  match s.data with
  | 'c' :: 'a' :: 'r' :: 'd' :: rest => !rest.isEmpty && rest.all (·.isDigit)
  | _ => false

/-- Embedding of drm_cards: the cardN entries of /sys/class/drm. -/
def drm_cards (w : World) : List String := w.sysDrmEntries.filter isCardName

/-- Identity summary of the per card INFO line: the DRIVER / PCI_ID /
vendor / device / class items joined, or a partial marker. -/
def identity_brief (ident : List (String × String)) : String :=
  let s := joinComma ((ident.filter
    (fun kv => kv.1 ∈ ["DRIVER", "PCI_ID", "vendor", "device", "class"])).map
    (fun kv => kv.1 ++ "=" ++ kv.2))
  if s = "" then "<partial>" else s

/-- Runtime PM summary of the per card INFO line. -/
def pm_brief (pm : List (String × String)) : String :=
  joinComma (pm.map (fun kv => kv.1 ++ "=" ++ kv.2))

/-- Driver binding flag of gate 2: any card with a driver symlink. -/
def any_driver (w : World) (cards : List String) : Bool :=
  cards.any fun c => (w.driverOf c).isSome

/-- Gate 2 entries of one card in src/gfx.py lines 437-451: an OK line for a
bound driver or a WARN line otherwise, then the identity and runtime PM INFO
lines when those dictionaries are nonempty. -/
def card_lines_gfx (w : World) (c : String) : List Evidence :=
  (match w.driverOf c with
    | some drv => [.tagged .ok (c ++ ": driver bound = " ++ drv)]
    | none => [.tagged .warn (c ++ ": no driver bound symlink")]) ++
  (if w.identityOf c = [] then []
    else [.tagged .info (c ++ ": identity: " ++ identity_brief (w.identityOf c))]) ++
  (if w.pmOf c = [] then []
    else [.tagged .info (c ++ " runtime PM: " ++ pm_brief (w.pmOf c))])

/-- Gate 2 entries of one card in src/drm.py lines 484-498: as the gfx
variant but PASS for a bound driver and FAIL for a missing one. -/
def card_lines_drm (w : World) (c : String) : List Evidence :=
  (match w.driverOf c with
    | some drv => [.tagged .pass (c ++ ": driver bound = " ++ drv)]
    | none => [.tagged .fail (c ++ ": no driver bound symlink")]) ++
  (if w.identityOf c = [] then []
    else [.tagged .info (c ++ ": identity: " ++ identity_brief (w.identityOf c))]) ++
  (if w.pmOf c = [] then []
    else [.tagged .info (c ++ " runtime PM: " ++ pm_brief (w.pmOf c))])

/-- Gate 4 parameter strings: mod.param=value for each readable parameter of
the four known modeset switches. -/
def modeset_param_list (w : World) : List String :=
  ([("nvidia_drm", "modeset"), ("i915", "modeset"),
    ("amdgpu", "dc"), ("radeon", "modeset")]).filterMap
    (fun mp => (w.moduleParamOf mp.1 mp.2).map (fun v => mp.1 ++ "." ++ mp.2 ++ "=" ++ v))

/-- Gate 5 connected flag: any evaluated connector with status connected. -/
def any_connected_gfx (w : World) (cards : List String) : Bool :=
  cards.any fun c => (w.connectorsOf c).any fun ci => (evalConnector_gfx ci).2

/-- Gate 5 connected flag of the drm variant (same predicate). -/
def any_connected_drm (w : World) (cards : List String) : Bool :=
  cards.any fun c => (w.connectorsOf c).any fun ci => (evalConnector_drm ci).2

/-- Gate 5 entries of src/gfx.py lines 488-509: a WARN per card without
connectors, else the loop body entries of each connector. -/
def connector_gate_lines_gfx (w : World) (cards : List String) : List Evidence :=
  (cards.map fun c =>
    if w.connectorsOf c = [] then
      [.tagged .warn (c ++ ": no connectors found (headless/render-only?)")]
    else ((w.connectorsOf c).map fun ci => (evalConnector_gfx ci).1).flatten).flatten

/-- Gate 5 entries of src/drm.py lines 536-555: cards without connectors are
skipped silently (continue), else the loop body entries of each connector. -/
def connector_gate_lines_drm (w : World) (cards : List String) : List Evidence :=
  (cards.map fun c =>
    ((w.connectorsOf c).map fun ci => (evalConnector_drm ci).1).flatten).flatten

/-- Names of the connectors the gate 5 loop evaluates, in order. -/
def connectors_evaluated (w : World) (cards : List String) : List String :=
  (cards.map fun c => (w.connectorsOf c).map (·.name)).flatten

/-- Embedding of pick_primary_card as it executes in src/drm.py:
sorted(list_dri_debug_cards)[0], the least debugfs card index, or None when
the list is empty (the permission-denied None return of list_dri_debug_cards
also lands here, since `cards[0] if cards else None` treats None as falsy).
The gfx.py copy of this function never returns: it reads DRI_DEBUGFS, which
gfx.py does not define. -/
def pick_primary_card (w : World) : Option Nat :=
  match w.debugfsCards with
  | [] => none
  | x :: xs => some (xs.foldl Nat.min x)

/-- Outcome of one run of run_flow_kms: exitCode is the returned code when
the function returns and none when it aborts with an uncaught exception
(error then names the exception); lines is every evidence entry recorded
before the return or abort (drm.py prints as it goes; gfx.py appends to its
lines list, which its caller prints only on the returning paths); the last
two fields observe which connectors gate 5 evaluated and which runtime
probes gate 6 invoked. -/
structure KmsRun where
  exitCode : Option Nat
  error : Option String
  lines : List Evidence
  connectorsEvaluated : List String
  probesRun : List String
  deriving DecidableEq, Repr

/-- Embedding of run_flow_kms of src/gfx.py lines 418-532: the six gates in
order.  gfx.py defines its lines list, so every hard-gate failure really
returns (2, lines).  Gate 6, however, can never execute: its first statement
calls pick_primary_card, and gfx.py defines neither DEBUGFS nor DRI_DEBUGFS
(nor imports time), so every run that reaches gate 6 aborts with NameError
before recording anything further or returning. -/
def run_flow_kms_gfx (w : World) : KmsRun :=
  let ev0 : List Evidence := [.tagged .info "Flow: normal DRM/KMS"]
  if w.sysDrmEntries = [] then
    ⟨some 2, none, ev0 ++ [.tagged .fail "/sys/class/drm missing/empty: DRM not exporting state (driver not loaded/bound?)"], [], []⟩
  else
  let ev1 := ev0 ++ [.tagged .info ("/sys/class/drm entries: " ++ joinComma w.sysDrmEntries)]
  let cards := drm_cards w
  if cards = [] then
    ⟨some 2, none, ev1 ++ [.tagged .fail "No /sys/class/drm/cardN found: DRM device not registered (driver missing/not bound?)"], [], []⟩
  else
  let ev2 := ev1 ++ [.tagged .ok ("Found DRM cards: " ++ joinComma cards)] ++
    (cards.map (card_lines_gfx w)).flatten
  if !any_driver w cards then
    ⟨some 2, none, ev2 ++ [.tagged .fail "DRM cards exist but none show a bound driver: probe/bind issue"], [], []⟩
  else
  if w.devDriNodes = [] then
    ⟨some 2, none, ev2 ++ [.tagged .fail "/dev/dri missing/empty: udev/devtmpfs nodes not created"], [], []⟩
  else
  let ev3 := ev2 ++ [.tagged .info ("/dev/dri nodes: " ++ joinComma w.devDriNodes)]
  if !(w.devDriNodes.any fun n => pyStartsWith n "card") then
    ⟨some 2, none, ev3 ++ [.tagged .fail "No /dev/dri/card*: compositor cannot open KMS"], [], []⟩
  else
  let ev4 := ev3 ++ [.tagged .ok "/dev/dri/card* present (KMS node)"] ++
    (if w.devDriNodes.any fun n => pyStartsWith n "renderD" then
      [.tagged .ok "/dev/dri/renderD* present (render node)"]
    else [.tagged .warn "No /dev/dri/renderD*: Mesa may fall back to llvmpipe or rendering may fail"])
  let params := modeset_param_list w
  let ev5 := ev4 ++ [.tagged .info ("modeset params: " ++
    (if params = [] then "<none readable>" else joinComma params))]
  if params.any fun p => pyStartsWith p "nvidia_drm.modeset=0" then
    ⟨some 2, none, ev5 ++ [.tagged .fail "nvidia_drm.modeset=0: KMS disabled for NVIDIA DRM (often black screen on Wayland)"], [], []⟩
  else
  let ev6 := ev5 ++ connector_gate_lines_gfx w cards ++
    (if any_connected_gfx w cards then [.tagged .ok "At least one connector is connected"]
    else [.tagged .warn "No connectors report connected (if you expect display: cable/hotplug/link training)"])
  ⟨none, some nameErrDri, ev6, connectors_evaluated w cards, []⟩

/-- Embedding of run_flow_kms of src/drm.py lines 466-587: same gate order
with the drm severities (PASS instead of OK; FAIL for a card without driver
symlink and for a missing render node) and silent skip of cards without
connectors.  drm.py never defines lines, so each hard-gate failure prints
its FAIL and then aborts with NameError at `return 2, lines` instead of
returning 2.  Gate 6 is executable in drm.py: with no debugfs card it prints
FAIL and really returns 2 (a bare return); with a card it runs
capture_drm_trace, the flip probe and the psr probe — the first two are
injected as PyResult since each can abort the run with NameError
(TraceCaptureResult and FlipResult are undefined) — records PASS or FAIL per
returned value from its truthiness, and returns 0. -/
def run_flow_kms_drm (w : World) : KmsRun :=
  let ev0 : List Evidence := [.tagged .info "Flow: normal DRM/KMS"]
  if w.sysDrmEntries = [] then
    ⟨none, some nameErrLines, ev0 ++ [.tagged .fail "/sys/class/drm missing/empty: DRM not exporting state (driver not loaded/bound?)"], [], []⟩
  else
  let ev1 := ev0 ++ [.tagged .info ("/sys/class/drm entries: " ++ joinComma w.sysDrmEntries)]
  let cards := drm_cards w
  if cards = [] then
    ⟨none, some nameErrLines, ev1 ++ [.tagged .fail "No /sys/class/drm/cardN found: DRM device not registered (driver missing/not bound?)"], [], []⟩
  else
  let ev2 := ev1 ++ [.tagged .pass ("Found DRM cards: " ++ joinComma cards)] ++
    (cards.map (card_lines_drm w)).flatten
  if !any_driver w cards then
    ⟨none, some nameErrLines, ev2 ++ [.tagged .fail "DRM cards exist but none show a bound driver: probe/bind issue"], [], []⟩
  else
  if w.devDriNodes = [] then
    ⟨none, some nameErrLines, ev2 ++ [.tagged .fail "/dev/dri missing/empty: udev/devtmpfs nodes not created"], [], []⟩
  else
  let ev3 := ev2 ++ [.tagged .info ("/dev/dri nodes: " ++ joinComma w.devDriNodes)]
  if !(w.devDriNodes.any fun n => pyStartsWith n "card") then
    ⟨none, some nameErrLines, ev3 ++ [.tagged .fail "No /dev/dri/card*: compositor cannot open KMS"], [], []⟩
  else
  let ev4 := ev3 ++ [.tagged .pass "/dev/dri/card* present (KMS node)"] ++
    (if w.devDriNodes.any fun n => pyStartsWith n "renderD" then
      [.tagged .pass "/dev/dri/renderD* present (render node)"]
    else [.tagged .fail "No /dev/dri/renderD*: Mesa may fall back to llvmpipe or rendering may fail"])
  let params := modeset_param_list w
  let ev5 := ev4 ++ [.tagged .info ("modeset params: " ++
    (if params = [] then "<none readable>" else joinComma params))]
  if params.any fun p => pyStartsWith p "nvidia_drm.modeset=0" then
    ⟨none, some nameErrLines, ev5 ++ [.tagged .fail "nvidia_drm.modeset=0: KMS disabled for NVIDIA DRM (often black screen on Wayland)"], [], []⟩
  else
  let ev6 := ev5 ++ connector_gate_lines_drm w cards ++
    (if any_connected_drm w cards then [.tagged .pass "At least one connector is connected"]
    else [.tagged .fail "No connectors report connected (if you expect display: cable/hotplug/link training)"])
  let evald := connectors_evaluated w cards
  match pick_primary_card w with
  | none => ⟨some 2, none, ev6 ++ [.tagged .fail "no /sys/kernel/debug/dri/<N> found"], evald, []⟩
  | some _ =>
    match w.traceVb with
    | .raises e => ⟨none, some e, ev6, evald, ["capture_drm_trace"]⟩
    | .val vb =>
      let vbLine : Evidence := match vb with
        | some n => if n ≠ 0 then .tagged .pass ("check vblank_event count: " ++ toString n)
                    else .tagged .fail "no vblan found"
        | none => .tagged .fail "no vblan found"
      match w.flipsCount with
      | .raises e =>
        ⟨none, some e, ev6 ++ [vbLine], evald, ["capture_drm_trace", "check_framebuffer_flips"]⟩
      | .val f =>
        let flipLine : Evidence :=
          if f ≠ 0 then .tagged .pass ("check framebuffer flips count: " ++ toString f)
          else .tagged .fail "framebuffer has no flips"
        let psrLine : Evidence :=
          if w.psrOk then .tagged .pass "PSR/ALPM status is ok"
          else .tagged .fail "PSR/ALPM status is abnormal"
        ⟨some 0, none, ev6 ++ [vbLine, flipLine, psrLine], evald,
          ["capture_drm_trace", "check_framebuffer_flips", "check_psr_alpm_state"]⟩

/-- Evidence entry with FAIL severity. -/
def isFailEntry : Evidence → Bool
  | .tagged .fail _ => true
  | _ => false

/-- Environment of the C6 failing run: tracefs mounted, all three default
event enable files present, and the third tracing_on write (the one enabling
capture, performed after the event switches were turned on) raising
PermissionError. -/
def traceEnvC6 : TraceEnv :=
  ⟨true, fun _ => true,
    ["/sys/kernel/tracing/events/drm/drm_atomic_commit/enable",
      "/sys/kernel/tracing/events/drm/drm_vblank_event/enable",
      "/sys/kernel/tracing/events/drm/drm_vblank_event_delivered/enable"],
    0, some 5⟩

/-- World of the C1 witness: one card, no driver bound anywhere. -/
def worldC1 : World :=
  ⟨["card0"], fun _ => none, fun _ => [], fun _ => [], [], fun _ _ => none,
    fun _ => [], [], .val none, .val 0, false⟩

/-- Connected connector with zero modes, implausible EDID and a bad link
status, used for C2. -/
def connC2 : ConnInfo :=
  ⟨"card0-HDMI-A-1", some "connected", none, none, none, some "bad", some "0"⟩

/-- Disconnected connector used for C2. -/
def connC2b : ConnInfo :=
  ⟨"card0-DP-1", some "disconnected", none, none, some "1920x1080", none, none⟩

/-- World of the C4 failing run: all hard gates pass, the debugfs card
exists, the trace capture completed, and the flip probe of drm.py completes
with zero flips. -/
def worldC4 : World :=
  ⟨["card0"], fun _ => some "i915", fun _ => [], fun _ => [],
    ["card0", "renderD128"], fun _ _ => none, fun _ => [], [0],
    .val (some 100), .val 0, true⟩

/-- World of the C5 counterexample: all hard gates pass and the run reaches
the runtime gate, but the privileged introspection layer is absent (no
debugfs dri card). -/
def worldC5 : World :=
  ⟨["card0"], fun _ => some "i915", fun _ => [], fun _ => [],
    ["card0", "renderD128"], fun _ _ => none, fun _ => [], [],
    .val (some 100), .val 2, true⟩

/-- World of the C5 witness, value-outcome part: debugfs card present and
deliberately bad returned probe values (permission-denied capture, zero
flips, bad psr). -/
def worldC5b : World :=
  ⟨["card0"], fun _ => some "i915", fun _ => [], fun _ => [],
    ["card0", "renderD128"], fun _ _ => none, fun _ => [], [0],
    .val none, .val 0, false⟩

/-- World of the C5 witness, aborting part: debugfs card present but
tracefs absent, so capture_drm_trace raises (TraceCaptureResult undefined). -/
def worldC5c : World :=
  ⟨["card0"], fun _ => some "i915", fun _ => [], fun _ => [],
    ["card0", "renderD128"], fun _ _ => none, fun _ => [], [0],
    .raises nameErrTraceResult, .val 0, true⟩

theorem flipLoop_flips_le (reads : Nat → Option String) :
    ∀ (fuel i : Nat) (prev : List Nat) (flips waits : Nat),
      (flipLoop reads i fuel prev flips waits).1 ≤ flips + fuel := by
  intro fuel
  induction fuel with
  | zero => intro i prev flips waits; simp [flipLoop]
  | succ n ih =>
    intro i prev flips waits
    simp only [flipLoop]
    cases reads i with
    | none => simp
    | some txt =>
      dsimp only
      split
      · exact le_trans (ih (i + 1) _ (flips + 1) (waits + 1)) (by omega)
      · exact le_trans (ih (i + 1) _ flips (waits + 1)) (by omega)

theorem flipLoop_congr (r r' : Nat → Option String) (h : ∀ i, r i = r' i) :
    ∀ (fuel i : Nat) (prev : List Nat) (flips waits : Nat),
      flipLoop r i fuel prev flips waits = flipLoop r' i fuel prev flips waits := by
  intro fuel
  induction fuel with
  | zero => intro i prev flips waits; rfl
  | succ n ih =>
    intro i prev flips waits
    simp only [flipLoop, h i]
    cases r' i with
    | none => rfl
    | some txt =>
      dsimp only
      split
      · exact ih (i + 1) _ (flips + 1) (waits + 1)
      · exact ih (i + 1) _ flips (waits + 1)

theorem dictGet_mkAssoc (counters : List String) (f : String → Option Int) (k : String) :
    dictGet (mkAssoc counters f) k = if k ∈ counters then f k else none := by
  induction counters with
  | nil => simp [mkAssoc, dictGet]
  | cons c cs ih =>
    by_cases hck : c = k
    · subst hck
      cases hf : f c with
      | none =>
        simp only [mkAssoc, List.filterMap_cons, hf, Option.map_none']
        rw [show (List.filterMap (fun p => (f p).map fun v => (p, v)) cs) = mkAssoc cs f from rfl,
          ih]
        simp [hf]
      | some v =>
        simp only [mkAssoc, List.filterMap_cons, hf, Option.map_some']
        simp [dictGet, List.find?, hf]
    · cases hf : f c with
      | none =>
        simp only [mkAssoc, List.filterMap_cons, hf, Option.map_none']
        rw [show (List.filterMap (fun p => (f p).map fun v => (p, v)) cs) = mkAssoc cs f from rfl,
          ih]
        have hkc : ¬ k = c := fun h => hck h.symm
        simp [List.mem_cons, hkc]
      | some v =>
        simp only [mkAssoc, List.filterMap_cons, hf, Option.map_some']
        have hbeq : (c == k) = false := by
          simp [hck]
        simp only [dictGet, List.find?, hbeq]
        rw [show (List.find? (fun kv => kv.1 == k)
            (List.filterMap (fun p => (f p).map fun v => (p, v)) cs)).map (·.2) =
            dictGet (mkAssoc cs f) k from rfl, ih]
        have hkc : ¬ k = c := fun h => hck h.symm
        simp [List.mem_cons, hkc]

theorem mem_mkAssoc (counters : List String) (f : String → Option Int) (k : String) (v : Int) :
    (k, v) ∈ mkAssoc counters f ↔ k ∈ counters ∧ f k = some v := by
  simp only [mkAssoc, List.mem_filterMap, Option.map_eq_some']
  constructor
  · rintro ⟨p, hp, v0, hv0, heq⟩
    obtain ⟨h1, h2⟩ := Prod.mk.injEq _ _ _ _ ▸ heq
    refine ⟨h1 ▸ hp, ?_⟩
    subst h1; subst h2; exact hv0
  · rintro ⟨hk, hv⟩
    exact ⟨k, hk, v, hv, rfl⟩

/-- C7: the spec claims a sentinel for absent input and a distinct sentinel
for present-but-unreadable input that callers can tell apart; read_text
returns the very same sentinel None in both cases, so the two situations are
indistinguishable to callers. -/
theorem C7_claim_counterexample :
    read_text FileState.unreadable 200000 = read_text FileState.absent 200000 ∧
    read_text FileState.absent 200000 = none := by
  exact ⟨rfl, rfl⟩

/-- C7 amended: for every path state, read_text returns None exactly when the
path is absent or unreadable (one shared sentinel for both, so absence and
permission failure are not distinguishable), and otherwise the stripped
content, truncated with a marker when it exceeds the size bound; it is a
total function, so no input raises. -/
theorem C7_read_text_sentinels (fs : FileState) (mb : Nat) :
    (read_text fs mb = none ↔ fs = .absent ∨ fs = .unreadable) ∧
    (∀ s, fs = .content s → s.length ≤ mb → read_text fs mb = some (pyStrip s)) ∧
    (∀ s, fs = .content s → s.length > mb →
      read_text fs mb = some (pyStrip (pyTake s mb ++ truncationFlag))) := by
  refine ⟨?_, ?_, ?_⟩
  · cases fs <;> simp [read_text]
  · rintro s rfl hle
    simp [read_text, Nat.not_lt_of_le hle]
  · rintro s rfl hgt
    simp [read_text, hgt]

theorem C7_read_text_sentinels_witness :
    read_text (FileState.content "  psr enabled  ") 200000 = some "psr enabled" := by
  have h := (C7_read_text_sentinels (FileState.content "  psr enabled  ") 200000).2.1
    "  psr enabled  " rfl (by decide)
  rw [h]
  rfl

/-- C8: when tracefs is not mounted, capture_drm_trace returns the
unsupported result before performing a single write: no enable switch,
tracing_on or trace buffer write happens. -/
theorem C8_tracefs_absent_no_writes (env : TraceEnv) (cleanup : Bool)
    (h : env.tracefs_mounted = false) :
    capture_drm_trace env cleanup =
      (.unsupported "tracefs not mounted at /sys/kernel/tracing", []) := by
  simp [capture_drm_trace, h]

theorem C8_tracefs_absent_no_writes_witness :
    capture_drm_trace ⟨false, fun _ => true, [], 0, none⟩ true =
      (.unsupported "tracefs not mounted at /sys/kernel/tracing", []) :=
  C8_tracefs_absent_no_writes ⟨false, fun _ => true, [], 0, none⟩ true rfl

/-- C6: on the run where tracefs is mounted, the three default event
switches are enabled, and the subsequent tracing_on write raises
PermissionError, capture_drm_trace exits through the except handler with the
vblank event switch still enabled: the claimed disable-on-every-exit-path
obligation is not met on error paths (the source has no try/finally and the
handler performs no cleanup). -/
theorem C6_trace_switch_left_enabled :
    (capture_drm_trace traceEnvC6 true).1 = .permissionDenied ∧
    ("/sys/kernel/tracing/events/drm/drm_vblank_event/enable", "1")
      ∈ (capture_drm_trace traceEnvC6 true).2 ∧
    switch_enabled_at_exit (capture_drm_trace traceEnvC6 true).2
      "/sys/kernel/tracing/events/drm/drm_vblank_event/enable" = true := by
  refine ⟨rfl, ?_, rfl⟩
  decide

/-- C9 on the intended probe semantics (the real gfx.py function raises
NameError on every call — DRI_DEBUGFS and time are undefined there — so
this is proved of the model that supplies those missing globals): the vblank
probe reports a delta for a counter exactly when the debugfs base exists,
the counter was enumerated, and both the before read and the after read
produced an integer; a counter with a failed read is omitted from deltas
rather than reported as zero, and an empty counter list (or a missing base)
yields an unsupported result, not an empty success. -/
theorem C9_vblank_delta_iff (card : Nat) (baseExists : Bool) (counters : List String)
    (rb ra : String → Option String) (k : String) :
    ((∃ d, (k, d) ∈ (check_vblank_events card baseExists counters rb ra).deltas) ↔
      (baseExists = true ∧ k ∈ counters ∧
        (_read_int (rb k)).isSome ∧ (_read_int (ra k)).isSome)) ∧
    (check_vblank_events card baseExists [] rb ra).supported = false ∧
    (check_vblank_events card false counters rb ra).supported = false := by
  refine ⟨?_, ?_, by simp [check_vblank_events]⟩
  · cases baseExists with
    | false => simp [check_vblank_events]
    | true =>
      by_cases hc : counters = []
      · subst hc; simp [check_vblank_events]
      · simp only [check_vblank_events, Bool.not_true, Bool.false_eq_true, if_false, hc,
          if_neg hc]
        constructor
        · rintro ⟨d, hd⟩
          simp only [List.mem_filterMap, Option.map_eq_some'] at hd
          obtain ⟨kv, hkv, v1, hv1, heq⟩ := hd
          obtain ⟨h1, _⟩ := Prod.mk.injEq _ _ _ _ ▸ heq
          subst h1
          rw [mem_mkAssoc] at hkv
          obtain ⟨hmem, hbef⟩ := hkv
          rw [dictGet_mkAssoc, if_pos hmem] at hv1
          exact ⟨by simp, hmem, by simp [hbef], by simp [hv1]⟩
        · rintro ⟨-, hmem, hb, ha⟩
          obtain ⟨v0, hv0⟩ := Option.isSome_iff_exists.mp hb
          obtain ⟨v1, hv1⟩ := Option.isSome_iff_exists.mp ha
          refine ⟨v1 - v0, ?_⟩
          simp only [List.mem_filterMap, Option.map_eq_some']
          refine ⟨(k, v0), (mem_mkAssoc _ _ _ _).mpr ⟨hmem, hv0⟩, v1, ?_, rfl⟩
          rw [dictGet_mkAssoc, if_pos hmem]
          exact hv1
  · by_cases hb : baseExists = true
    · subst hb; simp [check_vblank_events]
    · simp only [Bool.not_eq_true] at hb
      subst hb; simp [check_vblank_events]

/-- C3: the claim quantifies over every configured sample count; at
samples = 0 the probe completes with flips_seen = 0 while the claimed upper
bound is N - 1 = -1, so the stated interval is violated. -/
theorem C3_claim_counterexample :
    (check_framebuffer_flips 0 0 (some "") (fun _ => some "")).1.flips_seen = 0 ∧
    ¬ (((check_framebuffer_flips 0 0 (some "") (fun _ => some "")).1.flips_seen : Int)
        ≤ 0 - 1) := by
  exact ⟨rfl, by decide⟩

/-- C3 amended: for every sample count N >= 1 the reported flip count lies
in [0, N - 1] (the lower bound holds because the count is a natural), and
the probe is a function of the injected sample sequence alone: two runs over
pointwise equal sample sequences return identical results. -/
theorem C3_flip_bound_and_deterministic :
    (∀ (card : Nat) (samples : Int) (t0 : String) (reads : Nat → Option String),
      1 ≤ samples →
      ((check_framebuffer_flips card samples (some t0) reads).1.flips_seen : Int)
        ≤ samples - 1) ∧
    (∀ (card : Nat) (samples : Int) (txt0 : Option String)
      (reads reads' : Nat → Option String), (∀ i, reads i = reads' i) →
      check_framebuffer_flips card samples txt0 reads =
        check_framebuffer_flips card samples txt0 reads') := by
  constructor
  · intro card samples t0 reads hs
    have hb := flipLoop_flips_le reads (samples - 1).toNat 0
      (sortedSet (_extract_fb_ids_from_state t0)) 0 0
    have hfl : (check_framebuffer_flips card samples (some t0) reads).1.flips_seen
        ≤ (samples - 1).toNat := by
      simpa [check_framebuffer_flips] using hb
    calc ((check_framebuffer_flips card samples (some t0) reads).1.flips_seen : Int)
        ≤ ((samples - 1).toNat : Int) := by exact_mod_cast hfl
      _ = samples - 1 := Int.toNat_of_nonneg (by omega)
  · intro card samples txt0 reads reads' h
    cases txt0 with
    | none => rfl
    | some t0 =>
      simp only [check_framebuffer_flips]
      rw [flipLoop_congr reads reads' h]

theorem C3_flip_bound_and_deterministic_witness :
    ((check_framebuffer_flips 0 3 (some "") (fun _ => some "fb=1")).1.flips_seen : Int)
      ≤ 3 - 1 ∧
    check_framebuffer_flips 0 3 (some "") (fun _ => some "fb=1") =
      check_framebuffer_flips 0 3 (some "") (fun _ => some "fb=1") :=
  ⟨C3_flip_bound_and_deterministic.1 0 3 "" (fun _ => some "fb=1") (by decide),
   C3_flip_bound_and_deterministic.2 0 3 (some "") (fun _ => some "fb=1")
     (fun _ => some "fb=1") (fun _ => rfl)⟩

/-- C10 on the intended probe semantics (the FlipResult record as declared
in src/gfx.py): a failed first read returns the unsupported record with zero
flips after zero sleeps; samples <= 1 performs zero sleeps and reports zero
flips; and a read failing after sampling began (here at loop iteration 2 of
a 5-sample run) stops the run early, returning the flips counted so far as a
supported result. -/
theorem C10_flip_probe_edges :
    (∀ (card : Nat) (samples : Int) (reads : Nat → Option String),
      check_framebuffer_flips card samples none reads =
        (⟨false, 0, 0, "Missing/unreadable: " ++ state_path card⟩, 0)) ∧
    (∀ (card : Nat) (t0 : String) (reads : Nat → Option String),
      (check_framebuffer_flips card 1 (some t0) reads).1.flips_seen = 0 ∧
      (check_framebuffer_flips card 1 (some t0) reads).2 = 0 ∧
      (check_framebuffer_flips card 0 (some t0) reads).1.flips_seen = 0 ∧
      (check_framebuffer_flips card 0 (some t0) reads).2 = 0) ∧
    (check_framebuffer_flips 0 5 (some "fb=1")
        (fun i => if i = 0 then some "fb=2" else if i = 1 then some "fb=2" else none) =
      (⟨true, 1, 5, "state=" ++ state_path 0 ++ " (fb ids change count)"⟩, 3)) := by
  refine ⟨?_, ?_, ?_⟩
  · intro card samples reads
    rfl
  · intro card t0 reads
    exact ⟨rfl, rfl, rfl, rfl⟩
  · decide

theorem any_driver_eq_false (w : World) (cards : List String)
    (hd : ∀ c ∈ cards, w.driverOf c = none) : any_driver w cards = false := by
  simp only [any_driver, List.any_eq_false]
  intro c hc
  simp [hd c hc]

/-- C1 on the two real control flows: with at least one cardN entry and no
bound driver anywhere, gfx.py records the binding failure as the final
evidence entry, really returns exit code 2 (gfx.py defines its lines list,
so `return 2, lines` executes), and evaluates no connector and invokes no
runtime probe.  drm.py records the same failure and equally evaluates
nothing afterwards, but its `return 2, lines` (src/drm.py line 502) raises
NameError — lines is undefined in drm.py — so the drm.py run aborts with an
exception instead of returning the claimed exit code 2. -/
theorem C1_binding_failure_behaviour (w : World)
    (hc : drm_cards w ≠ [])
    (hd : ∀ c ∈ drm_cards w, w.driverOf c = none) :
    ((run_flow_kms_gfx w).exitCode = some 2 ∧
      (run_flow_kms_gfx w).error = none ∧
      (run_flow_kms_gfx w).connectorsEvaluated = [] ∧
      (run_flow_kms_gfx w).probesRun = [] ∧
      (run_flow_kms_gfx w).lines.getLast? =
        some (.tagged .fail "DRM cards exist but none show a bound driver: probe/bind issue")) ∧
    ((run_flow_kms_drm w).exitCode = none ∧
      (run_flow_kms_drm w).error = some nameErrLines ∧
      (run_flow_kms_drm w).connectorsEvaluated = [] ∧
      (run_flow_kms_drm w).probesRun = [] ∧
      (run_flow_kms_drm w).lines.getLast? =
        some (.tagged .fail "DRM cards exist but none show a bound driver: probe/bind issue")) := by
  have hne : w.sysDrmEntries ≠ [] := by
    intro h
    apply hc
    simp [drm_cards, h]
  have had : any_driver w (drm_cards w) = false := any_driver_eq_false w _ hd
  constructor
  · simp [run_flow_kms_gfx, hne, hc, had]
    rw [← List.cons_append, List.getLast?_concat]
  · simp [run_flow_kms_drm, hne, hc, had]
    rw [← List.cons_append, List.getLast?_concat]

theorem C1_binding_failure_behaviour_witness :
    ((run_flow_kms_gfx worldC1).exitCode = some 2 ∧
      (run_flow_kms_gfx worldC1).error = none ∧
      (run_flow_kms_gfx worldC1).connectorsEvaluated = [] ∧
      (run_flow_kms_gfx worldC1).probesRun = [] ∧
      (run_flow_kms_gfx worldC1).lines.getLast? =
        some (.tagged .fail "DRM cards exist but none show a bound driver: probe/bind issue")) ∧
    ((run_flow_kms_drm worldC1).exitCode = none ∧
      (run_flow_kms_drm worldC1).error = some nameErrLines ∧
      (run_flow_kms_drm worldC1).connectorsEvaluated = [] ∧
      (run_flow_kms_drm worldC1).probesRun = [] ∧
      (run_flow_kms_drm worldC1).lines.getLast? =
        some (.tagged .fail "DRM cards exist but none show a bound driver: probe/bind issue")) :=
  C1_binding_failure_behaviour worldC1 (by decide) (by intro c hc; rfl)

/-- C2: the claim requires a FAIL evidence entry for a connected connector
with zero modes and for a connected connector with a non-good link status;
the gfx.py connector gate records WARN entries instead and no FAIL at all on
such a connector, so the claim fails on that variant. -/
theorem C2_claim_counterexample :
    conn_status connC2 = "connected" ∧
    conn_modes_len connC2 = 0 ∧
    conn_link_status connC2 = "bad" ∧
    (evalConnector_gfx connC2).1.all (fun e => !isFailEntry e) = true ∧
    Evidence.tagged .warn (conn_no_modes_msg connC2) ∈ (evalConnector_gfx connC2).1 ∧
    Evidence.tagged .warn (conn_link_msg connC2) ∈ (evalConnector_gfx connC2).1 := by
  refine ⟨rfl, rfl, rfl, ?_, ?_, ?_⟩ <;> decide

/-- C2 amended: for a connected connector with zero modes or a present
non-good link status the drm.py gate records FAIL entries while the gfx.py
gate records WARN entries for the same findings; a connected connector with
an implausible EDID size gets a WARN in both; and a connector whose status
is not connected contributes exactly its single INFO line in both, never a
FAIL. -/
theorem C2_connector_classification (ci : ConnInfo) :
    (conn_status ci = "connected" → conn_modes_len ci = 0 →
      Evidence.tagged .fail (conn_no_modes_msg ci) ∈ (evalConnector_drm ci).1 ∧
      Evidence.tagged .warn (conn_no_modes_msg ci) ∈ (evalConnector_gfx ci).1) ∧
    (conn_status ci = "connected" → conn_link_status ci ≠ "" →
      pyLower (conn_link_status ci) ≠ "good" →
      Evidence.tagged .fail (conn_link_msg ci) ∈ (evalConnector_drm ci).1 ∧
      Evidence.tagged .warn (conn_link_msg ci) ∈ (evalConnector_gfx ci).1) ∧
    (conn_status ci = "connected" → conn_edid_bytes ci ∈ ["0", "", "?"] →
      Evidence.tagged .warn (conn_edid_msg ci) ∈ (evalConnector_drm ci).1 ∧
      Evidence.tagged .warn (conn_edid_msg ci) ∈ (evalConnector_gfx ci).1) ∧
    (conn_status ci ≠ "connected" →
      (evalConnector_drm ci).1 = [conn_info_line ci] ∧
      (evalConnector_gfx ci).1 = [conn_info_line ci]) := by
  refine ⟨?_, ?_, ?_, ?_⟩
  · intro hst hm
    constructor <;> simp [evalConnector_drm, evalConnector_gfx, hst, hm]
  · intro hst hl1 hl2
    constructor <;> simp [evalConnector_drm, evalConnector_gfx, hst, hl1, hl2]
  · intro hst he
    constructor <;> simp [evalConnector_drm, evalConnector_gfx, hst, he]
  · intro hst
    constructor <;> simp [evalConnector_drm, evalConnector_gfx, hst]

theorem C2_connector_classification_witness :
    Evidence.tagged .fail (conn_no_modes_msg connC2) ∈ (evalConnector_drm connC2).1 ∧
    (evalConnector_gfx connC2b).1 = [conn_info_line connC2b] :=
  ⟨((C2_connector_classification connC2).1 (by decide) (by decide)).1,
    ((C2_connector_classification connC2b).2.2.2 (by decide)).2⟩

/-- C4: on a run whose hard gates all pass (so none of the NameError-raising
`return 2, lines` statements executes) and whose flip probe completes with
zero observed flips, run_flow_kms of drm.py records the evidence entry FAIL
framebuffer-has-no-flips (src/drm.py lines 574-578) and returns 0, even
though its own probe documentation says a static desktop legitimately yields
zero; the gfx.py variant of the same run records no FAIL entry at all. -/
theorem C4_zero_flips_recorded_fail :
    worldC4.flipsCount = PyResult.val 0 ∧
    (run_flow_kms_drm worldC4).exitCode = some 0 ∧
    Evidence.tagged .fail "framebuffer has no flips" ∈ (run_flow_kms_drm worldC4).lines ∧
    (run_flow_kms_gfx worldC4).lines.all (fun e => !isFailEntry e) = true := by
  refine ⟨rfl, ?_, ?_, ?_⟩ <;> decide

/-- C5: on a run that passes every hard gate and reaches the runtime-signal
gate with the privileged introspection layer absent, the claimed soft
behavior (recorded as INFO, pipeline completes) holds in neither variant:
drm.py (whose gate 6 is executable) records FAIL and returns the terminal
exit code 2, while gfx.py does not even reach the check — its gate 6 aborts
with NameError because DRI_DEBUGFS is undefined in gfx.py, so the pipeline
never completes there at all. -/
theorem C5_claim_counterexample :
    (run_flow_kms_drm worldC5).exitCode = some 2 ∧
    Evidence.tagged .fail "no /sys/kernel/debug/dri/<N> found" ∈ (run_flow_kms_drm worldC5).lines ∧
    (run_flow_kms_gfx worldC5).exitCode = none ∧
    (run_flow_kms_gfx worldC5).error = some nameErrDri := by
  refine ⟨?_, ?_, ?_, ?_⟩ <;> decide

/-- C5 amended, on the real control flows of runs whose hard gates pass:
gfx.py never completes its runtime gate (NameError, DRI_DEBUGFS undefined).
In drm.py, an absent introspection layer (no active debugfs dri card) is
recorded as FAIL with exit code 2, not INFO; with a debugfs card present,
probe outcomes that are returned as values are soft — whatever they are, the
run records their PASS/FAIL evidence and returns exit code 0 — but a probe
can also abort the run: when tracefs is absent, capture_drm_trace raises
(TraceCaptureResult undefined) and the exception propagates uncaught. -/
theorem C5_runtime_gate_behaviour (w : World)
    (hcards : drm_cards w ≠ [])
    (hdrv : any_driver w (drm_cards w) = true)
    (hnodes : w.devDriNodes ≠ [])
    (hcardnode : (w.devDriNodes.any fun n => pyStartsWith n "card") = true)
    (hnv : ((modeset_param_list w).any fun p => pyStartsWith p "nvidia_drm.modeset=0") = false) :
    ((run_flow_kms_gfx w).exitCode = none ∧
      (run_flow_kms_gfx w).error = some nameErrDri) ∧
    (w.debugfsCards = [] →
      (run_flow_kms_drm w).exitCode = some 2 ∧
      Evidence.tagged .fail "no /sys/kernel/debug/dri/<N> found" ∈ (run_flow_kms_drm w).lines) ∧
    (∀ v f, w.debugfsCards ≠ [] → w.traceVb = .val v → w.flipsCount = .val f →
      (run_flow_kms_drm w).exitCode = some 0 ∧ (run_flow_kms_drm w).error = none) ∧
    (∀ e, w.debugfsCards ≠ [] → w.traceVb = .raises e →
      (run_flow_kms_drm w).exitCode = none ∧ (run_flow_kms_drm w).error = some e) := by
  have hne : w.sysDrmEntries ≠ [] := by
    intro h
    apply hcards
    simp [drm_cards, h]
  refine ⟨?_, ?_, ?_, ?_⟩
  · simp [run_flow_kms_gfx, hne, hcards, hdrv, hnodes, hcardnode, hnv]
  · intro hdbg0
    simp [run_flow_kms_drm, hne, hcards, hdrv, hnodes, hcardnode, hnv,
      pick_primary_card, hdbg0]
  · intro v f hdbg htv hfc
    obtain ⟨x, xs, hdc⟩ : ∃ x xs, w.debugfsCards = x :: xs := by
      cases h : w.debugfsCards with
      | nil => exact absurd h hdbg
      | cons x xs => exact ⟨x, xs, rfl⟩
    constructor <;>
      simp [run_flow_kms_drm, hne, hcards, hdrv, hnodes, hcardnode, hnv,
        pick_primary_card, hdc, htv, hfc]
  · intro e hdbg htv
    obtain ⟨x, xs, hdc⟩ : ∃ x xs, w.debugfsCards = x :: xs := by
      cases h : w.debugfsCards with
      | nil => exact absurd h hdbg
      | cons x xs => exact ⟨x, xs, rfl⟩
    constructor <;>
      simp [run_flow_kms_drm, hne, hcards, hdrv, hnodes, hcardnode, hnv,
        pick_primary_card, hdc, htv]

theorem C5_runtime_gate_behaviour_witness :
    ((run_flow_kms_gfx worldC5).exitCode = none ∧
      (run_flow_kms_gfx worldC5).error = some nameErrDri) ∧
    ((run_flow_kms_drm worldC5).exitCode = some 2 ∧
      Evidence.tagged .fail "no /sys/kernel/debug/dri/<N> found" ∈ (run_flow_kms_drm worldC5).lines) ∧
    ((run_flow_kms_drm worldC5b).exitCode = some 0 ∧
      (run_flow_kms_drm worldC5b).error = none) ∧
    ((run_flow_kms_drm worldC5c).exitCode = none ∧
      (run_flow_kms_drm worldC5c).error = some nameErrTraceResult) :=
  ⟨(C5_runtime_gate_behaviour worldC5 (by decide) (by decide) (by decide)
      (by decide) (by decide)).1,
    (C5_runtime_gate_behaviour worldC5 (by decide) (by decide) (by decide)
      (by decide) (by decide)).2.1 rfl,
    (C5_runtime_gate_behaviour worldC5b (by decide) (by decide) (by decide)
      (by decide) (by decide)).2.2.1 none 0 (by decide) rfl rfl,
    (C5_runtime_gate_behaviour worldC5c (by decide) (by decide) (by decide)
      (by decide) (by decide)).2.2.2 nameErrTraceResult (by decide) rfl⟩

end DrmTest
